import Mathlib

/-!
Verification development for the `env-vars` typed configuration resolver.

The Python sources under `config/` are shallowly embedded below:
values are modelled by `PyVal`, exceptions by `PyExc`, and fallible
Python functions by `Except PyExc`-returning Lean functions.  Parts of
the repository that are only declared or tested in the sources at hand
(`config/config.py`, `config/mapping.py`, `config/enums.py`, the
`maybe_result` helper of `config/_helpers.py`) are modelled from the
specification; each such definition carries a doc comment starting with
`Modelled from the spec:`.
-/

/-- An Enum class as used by the casting layer: a class name together with
its members as (member name, member value) pairs.  Member values are
strings in all uses exercised here. -/
structure EnumCls where
  name : String
  members : List (String × String)
deriving DecidableEq, Repr

mutual

/-- Embedded Python runtime values, covering the types the configuration
core manipulates: `None`, booleans, integers, strings, bytes, floats
(kept opaque as their repr text, they are only ever used as unsupported
`Literal` candidates), enum members, tuples, lists, and the `MISSING`
sentinel class of `config/interface.py`. -/
inductive PyVal where
  | none : PyVal
  | bool : Bool → PyVal
  | int : Int → PyVal
  | float : String → PyVal
  | str : String → PyVal
  | bytes : String → PyVal
  | enumMember : EnumCls → String → String → PyVal
  | tuple : PyValList → PyVal
  | list : PyValList → PyVal
  | missingSentinel : PyVal

/-- A sequence of embedded values (elements of a Python tuple or list). -/
inductive PyValList where
  | nil : PyValList
  | cons : PyVal → PyValList → PyValList

end

deriving instance DecidableEq for PyVal, PyValList
deriving instance Repr for PyVal, PyValList

/-- Conversion from a Lean list of values. -/
def PyValList.ofList : List PyVal → PyValList
  | [] => .nil
  | x :: xs => .cons x (PyValList.ofList xs)

/-- Conversion to a Lean list of values. -/
def PyValList.toList : PyValList → List PyVal
  | .nil => []
  | .cons x xs => x :: PyValList.toList xs

/-- Python tuple literal from a Lean list. -/
def PyVal.tup (l : List PyVal) : PyVal := .tuple (PyValList.ofList l)

/-- Python list literal from a Lean list. -/
def PyVal.lst (l : List PyVal) : PyVal := .list (PyValList.ofList l)

mutual

/-- Embedded Python exceptions of the repository's error surface
(`config/exceptions.py` plus the builtins its code raises).
`invalidCast` carries a message, extra positional args and the
`__cause__` chain member; `alreadySet` and `keyError` are both
"key errors" (`AlreadySet` subclasses `KeyError`). -/
inductive PyExc where
  | missingName (msg : String)
  | invalidCast (msg : String) (extra : PyValList) (cause : PyExcCause)
  | invalidEnv (msg : String) (ruleName : String) (offending : PyVal)
  | valueError (msg : String)
  | typeError (msg : String)
  | fileNotFound (msg : String)
  | attributeError (msg : String)
  | keyError (key : String)
  | alreadySet (key : String)

/-- The `__cause__` slot of an exception: absent or another exception. -/
inductive PyExcCause where
  | none : PyExcCause
  | some (e : PyExc) : PyExcCause

end

deriving instance DecidableEq for PyExc, PyExcCause
deriving instance Repr for PyExc, PyExcCause

deriving instance DecidableEq for Except

def PyExc.isInvalidCast : PyExc → Bool
  | .invalidCast _ _ _ => true
  | _ => false

def PyExc.isMissingName : PyExc → Bool
  | .missingName _ => true
  | _ => false

/-- `AlreadySet` subclasses `KeyError`, so both answer to
`isinstance(e, KeyError)`. -/
def PyExc.isKeyError : PyExc → Bool
  | .keyError _ => true
  | .alreadySet _ => true
  | _ => false

/-- Python `repr` of an exception, as far as the error messages built by
the code need it: class name applied to the message. -/
def PyExc.reprStr : PyExc → String
  | .missingName m => "MissingName(" ++ m ++ ")"
  | .invalidCast m _ _ => "InvalidCast(" ++ m ++ ")"
  | .invalidEnv m _ _ => "InvalidEnv(" ++ m ++ ")"
  | .valueError m => "ValueError(" ++ m ++ ")"
  | .typeError m => "TypeError(" ++ m ++ ")"
  | .fileNotFound m => "FileNotFoundError(" ++ m ++ ")"
  | .attributeError m => "AttributeError(" ++ m ++ ")"
  | .keyError k => "KeyError(" ++ k ++ ")"
  | .alreadySet k => "AlreadySet(" ++ k ++ ")"

/-- Numeric value of a Python object for `==` purposes: `True == 1` and
`False == 0` because `bool` is an `int` subclass. -/
def PyVal.numVal : PyVal → Option Int
  | .int n => some n
  | .bool b => some (if b then 1 else 0)
  | _ => Option.none

mutual

/-- Python `==` on the embedded values: numbers compare across
`bool`/`int`, strings and bytes by content, `None` to itself, enum
members by identity (class and member name), tuples and lists
elementwise within their own kind. -/
def pyEqB : PyVal → PyVal → Bool
  | .str a, .str b => a == b
  | .bytes a, .bytes b => a == b
  | .none, .none => true
  | .enumMember c1 n1 _, .enumMember c2 n2 _ => c1 == c2 && n1 == n2
  | .tuple a, .tuple b => pyEqList a b
  | .list a, .list b => pyEqList a b
  | a, b =>
    match a.numVal, b.numVal with
    | some x, some y => x == y
    | _, _ => false

def pyEqList : PyValList → PyValList → Bool
  | .nil, .nil => true
  | .cons x xs, .cons y ys => pyEqB x y && pyEqList xs ys
  | _, _ => false

end

/-- Python `str()` of a value, used when the code interpolates a value
into an error message. -/
def PyVal.pyStr : PyVal → String
  | .none => "None"
  | .bool b => if b then "True" else "False"
  | .int n => toString n
  | .float r => r
  | .str s => s
  | .bytes s => "b" ++ s
  | .enumMember c n _ => c.name ++ "." ++ n
  | .tuple _ => "(...)"
  | .list _ => "[...]"
  | .missingSentinel => "MISSING"

/-- Is `needle` a contiguous sublist of `hay`. -/
def listContains (needle : List Char) : List Char → Bool
  | [] => needle.isEmpty
  | c :: rest => needle.isPrefixOf (c :: rest) || listContains needle rest

/-- Substring test on strings (is `needle` a contiguous substring of
`hay`). -/
def strContains (hay needle : String) : Bool :=
  listContains needle.data hay.data

mutual

/-- Whether a value's textual content mentions the given string: it
occurs in a string component (including nested tuple or list elements). -/
def valMentions : PyVal → String → Bool
  | .str s, t => strContains s t
  | .tuple l, t => valMentionsList l t
  | .list l, t => valMentionsList l t
  | _, _ => false

def valMentionsList : PyValList → String → Bool
  | .nil, _ => false
  | .cons x xs, t => valMentions x t || valMentionsList xs t

end

/-- Whether an exception's payload names the given string: it occurs as a
substring of the message or inside the extra positional args. -/
def PyExc.namesStr : PyExc → String → Bool
  | .invalidCast msg extra _, t => strContains msg t || valMentionsList extra t
  | .missingName msg, t => strContains msg t
  | _, _ => false

example : strContains "abc" "bc" = true := by decide
example : pyEqB (.bool true) (.int 1) = true := by decide
example : (PyVal.str "a" ≠ PyVal.str "b") := by decide

/-- Lower-casing of one ASCII character (Python `str.lower` restricted to
the ASCII inputs this code meets). -/
def charLower (c : Char) : Char :=
  if 'A' ≤ c ∧ c ≤ 'Z' then Char.ofNat (c.toNat + 32) else c

/-- Python `str.lower` (ASCII). -/
def pyLower (s : String) : String := String.mk (s.data.map charLower)

/-- Python `str.strip()`: drop leading and trailing whitespace. -/
def pyStrip (s : String) : String :=
  String.mk (((s.data.dropWhile Char.isWhitespace).reverse.dropWhile Char.isWhitespace).reverse)

/-- Decimal digit run to a number; fails on empty or non-digit input. -/
def digitsToNat : List Char → Option Nat
  | [] => Option.none
  | l =>
    if l.all Char.isDigit then some (l.foldl (fun n c => n * 10 + (c.toNat - 48)) 0)
    else Option.none

/-- Python `int(str)`: optional surrounding whitespace, an optional sign,
then decimal digits.  (PEP 515 underscores and non-ASCII digits are not
modelled; no input exercised here uses them.) -/
def pyIntParse (s : String) : Option Int :=
  match (pyStrip s).data with
  | '+' :: rest => (digitsToNat rest).map Int.ofNat
  | '-' :: rest => (digitsToNat rest).map (fun n => -(n : Int))
  | l => (digitsToNat l).map Int.ofNat

/-- The literal dictionary of `boolean_cast` in `config/utils.py`,
looked up with the lowered input string. -/
def booleanTable (l : String) : Option Bool :=
  if l = "true" then some true
  else if l = "false" then some false
  else if l = "1" then some true
  else if l = "0" then some false
  else if l = "" then some false
  else Option.none

/-- `boolean_cast` (config/utils.py): `instance_is_casted(bool)` passes
an existing bool straight through; a string is looked up in the
dictionary after `.lower()`; the plain (lenient) call returns an
`Optional[bool]` with `None` as the no-match marker.  A non-string,
non-bool input fails on `.lower()` with `AttributeError`. -/
def boolean_cast : PyVal → Except PyExc (Option Bool)
  | .bool b => .ok (some b)
  | .str s => .ok (booleanTable (pyLower s))
  | _ => .error (.attributeError "lower")

/-- Modelled from the spec: the `maybe_result` wrapper of
`config/_helpers.py` is not among the sources at hand; per the spec the
strict mode raises cast-failure (`InvalidCast`) on no-match and
otherwise returns the wrapped function's result. -/
def boolean_cast_strict (v : PyVal) : Except PyExc PyVal :=
  match boolean_cast v with
  | .ok (some b) => .ok (.bool b)
  | .ok Option.none =>
    .error (.invalidCast "Expected a boolean-like value but found no match" .nil .none)
  | .error e => .error e

/-- `null_cast` (config/utils.py): `None` passes through
(`instance_is_casted(NoneType)`); a string whose casefolded form is
`null`, `none` or empty maps to `None`; any other string raises
`InvalidCast`.  A non-string input fails on `.casefold()`. -/
def null_cast : PyVal → Except PyExc PyVal
  | .none => .ok .none
  | .str s =>
    let l := pyLower s
    if l = "null" ∨ l = "none" ∨ l = "" then .ok .none
    else .error (.invalidCast "Null values should match ('null', 'none', '')" .nil .none)
  | _ => .error (.attributeError "casefold")

/-- A cast function together with its Python `repr` text, used where the
code interpolates a cast's identity into an error message. -/
structure Cast where
  repr : String
  fn : PyVal → Except PyExc PyVal

/-- `with_rule` (config/utils.py): returns the value unchanged when the
rule holds of it, otherwise raises `InvalidEnv` whose args are the
message, the rule and the offending value. -/
def with_rule (ruleName : String) (rule : PyVal → Bool) : PyVal → Except PyExc PyVal :=
  fun val =>
    if rule val then .ok val
    else
      .error (.invalidEnv ("Value " ++ val.pyStr ++ " did not pass rule check " ++ ruleName)
        ruleName val)

/-- The combined message `multicast` raises when both casts fail. -/
def multicastMsg (often fallback : Cast) (first second : PyExc) : String :=
  "Value received failed both casts: " ++ often.repr ++ " and " ++ fallback.repr ++
    ": " ++ first.reprStr ++ " and " ++ second.reprStr

/-- `multicast` (config/utils.py): tries `often`; on `InvalidCast` tries
`fallback`; if that also raises `InvalidCast`, raises a single
`InvalidCast` whose message embeds both cast identities and both
failures, with the second failure as `__cause__` (`raise ... from
second`).  Exceptions other than `InvalidCast` propagate unhandled. -/
def multicast (often fallback : Cast) : Cast :=
  ⟨"multicast(" ++ often.repr ++ ", " ++ fallback.repr ++ ")",
   fun val =>
    match often.fn val with
    | .ok v => .ok v
    | .error first =>
      if first.isInvalidCast then
        match fallback.fn val with
        | .ok v => .ok v
        | .error second =>
          if second.isInvalidCast then
            .error (.invalidCast (multicastMsg often fallback first second) .nil (.some second))
          else .error second
      else .error first⟩

/-- Lexer state of the `shlex` tokenizer as configured by
`comma_separated` (config/utils.py): `posix=True`, `whitespace=","`,
`whitespace_split=True`, plus the shlex defaults (`commenters="#"`,
single and double quotes, backslash escapes, escaped quotes only inside
double quotes). -/
inductive ShState where
  | ws : ShState
  | word : ShState
  | quo (q : Char) : ShState
  | esc (fromDq : Bool) : ShState
  | comment : ShState
deriving DecidableEq, Repr

/-- One full `shlex` run (CPython `shlex.read_token` iterated to EOF)
under `comma_separated`'s configuration.  `tok` and `quoted` describe
the token being assembled, `acc` holds emitted tokens in reverse.  A
comma outside quotes ends a token; `#` outside quotes emits the pending
token and consumes the rest of the line; quote characters are stripped;
inside double quotes a backslash escapes a backslash or a double quote
and is otherwise kept literally; EOF inside a quote or right after a
backslash is an error; empty unquoted tokens are dropped. -/
def shRun :
    List Char → ShState → List Char → Bool → List (List Char) →
      Except String (List (List Char))
  | [], st, tok, quoted, acc =>
    match st with
    | .quo _ => .error "No closing quotation"
    | .esc _ => .error "No escaped character"
    | _ => .ok (if tok ≠ [] ∨ quoted then (tok :: acc).reverse else acc.reverse)
  | c :: cs, .ws, tok, quoted, acc =>
    if c = ',' then shRun cs .ws [] false (if tok ≠ [] ∨ quoted then tok :: acc else acc)
    else if c = '#' then
      shRun cs .comment [] false (if tok ≠ [] ∨ quoted then tok :: acc else acc)
    else if c = '\\' then shRun cs (.esc false) tok quoted acc
    else if c = '\'' ∨ c = '"' then shRun cs (.quo c) tok true acc
    else shRun cs .word (tok ++ [c]) quoted acc
  | c :: cs, .word, tok, quoted, acc =>
    if c = ',' then shRun cs .ws [] false (if tok ≠ [] ∨ quoted then tok :: acc else acc)
    else if c = '#' then
      shRun cs .comment [] false (if tok ≠ [] ∨ quoted then tok :: acc else acc)
    else if c = '\'' ∨ c = '"' then shRun cs (.quo c) tok true acc
    else if c = '\\' then shRun cs (.esc false) tok quoted acc
    else shRun cs .word (tok ++ [c]) quoted acc
  | c :: cs, .quo q, tok, quoted, acc =>
    if c = q then shRun cs .word tok quoted acc
    else if q = '"' ∧ c = '\\' then shRun cs (.esc true) tok quoted acc
    else shRun cs (.quo q) (tok ++ [c]) quoted acc
  | c :: cs, .esc fromDq, tok, quoted, acc =>
    if fromDq then
      shRun cs (.quo '"') (if c = '\\' ∨ c = '"' then tok ++ [c] else tok ++ ['\\', c])
        quoted acc
    else shRun cs .word (tok ++ [c]) quoted acc
  | c :: cs, .comment, tok, quoted, acc =>
    if c = '\n' then shRun cs .ws tok quoted acc else shRun cs .comment tok quoted acc

/-- The token list `shlex(s, posix=True)` with `whitespace=","` and
`whitespace_split=True` yields for a string input. -/
def shlexSplit (s : String) : Except String (List String) :=
  match shRun s.data .ws [] false [] with
  | .error m => .error m
  | .ok toks => .ok (toks.map (fun t => String.mk t))

/-- `comma_separated` (config/utils.py): `instance_is_casted(tuple)`
passes a tuple through unchanged; a string is tokenized by the `shlex`
configuration above, each token is `strip`ped and fed to the inner
cast, and the results are collected into a tuple.  Any other input
reaches `shlex`, which requires a string and fails looking up `.read`
on it.  (The Python code casts tokens as the lazy tokenizer yields
them; here the token list is produced first — observationally equal
except when a cast failure precedes a tokenizer error, a case no claim
touches.) -/
def comma_separated (cast : String → Except PyExc PyVal) : PyVal → Except PyExc PyVal
  | .tuple t => .ok (.tuple t)
  | .str s =>
    match shlexSplit s with
    | .error m => .error (.valueError m)
    | .ok toks => do
      let vs ← toks.mapM (fun t => cast (pyStrip t))
      pure (PyVal.tup vs)
  | _ => .error (.attributeError "read")

/-- The default inner cast of `comma_separated`: Python `str` applied to
a string returns it unchanged. -/
def strCast : String → Except PyExc PyVal := fun s => .ok (.str s)

/-- Python `int` as an inner cast on strings. -/
def intCast : String → Except PyExc PyVal := fun s =>
  match pyIntParse s with
  | some n => .ok (.int n)
  | Option.none => .error (.valueError ("invalid literal for int() with base 10: " ++ s))

example : shlexSplit "a, b, c" = .ok ["a", " b", " c"] := by decide
example : comma_separated strCast (.str "a, 'b, c'") =
    .ok (.tup [.str "a", .str "b, c"]) := by decide
example : comma_separated intCast (.str "1, 2, 3") =
    .ok (.tup [.int 1, .int 2, .int 3]) := by decide

/-- Runtime types of literal candidates: the keys of `_cast_map` in
`config/utils.py`, Enum subclasses, and `other` for every runtime type
that is neither (floats, tuples, functions, ...). -/
inductive PyType where
  | str : PyType
  | bool : PyType
  | int : PyType
  | bytes : PyType
  | noneType : PyType
  | enum (cls : EnumCls) : PyType
  | other : PyType
deriving DecidableEq, Repr

/-- Python `type(arg)` of a literal candidate, as `literal_cast` computes
it when building `arg_map`. -/
def PyVal.typeOf : PyVal → PyType
  | .bool _ => .bool
  | .int _ => .int
  | .str _ => .str
  | .bytes _ => .bytes
  | .none => .noneType
  | .enumMember cls _ _ => .enum cls
  | _ => .other

/-- `_cast_map` (config/utils.py) as a partial map from runtime types to
casters, extended as in `_try_cast` with Enum subclasses called by
value; `none` for types neither in the map nor Enum subclasses. -/
def casterFor : PyType → Option (String → Except PyExc PyVal)
  | .str => some strCast
  | .bool => some (fun s => boolean_cast_strict (.str s))
  | .int => some intCast
  | .bytes => some (fun s => .ok (.bytes s))
  | .noneType => some (fun s => null_cast (.str s))
  | .enum cls => some (fun s =>
      match cls.members.find? (fun m => m.2 == s) with
      | some m => .ok (.enumMember cls m.1 m.2)
      | Option.none => .error (.valueError (s ++ " is not a valid " ++ cls.name)))
  | .other => Option.none

/-- `_try_cast` (config/utils.py): look the candidate type up in
`_cast_map` (an Enum subclass serves as its own caster); an unknown
type raises `InvalidCast("Unknown type used for Literal")` before the
`try`; a caster failure inside the `try` is swallowed and the raw
string returned unchanged. -/
def tryCast (t : PyType) (val : String) : Except PyExc PyVal :=
  match casterFor t with
  | Option.none => .error (.invalidCast "Unknown type used for Literal" .nil .none)
  | some caster =>
    match caster val with
    | .ok v => .ok v
    | .error _ => .ok (.str val)

/-- The error `literal_cast` raises when no candidate matched: the fixed
message together with the full candidate tuple (`literal_decl.__args__`)
as the second positional arg. -/
def literalNoMatchErr (args : List PyVal) : PyExc :=
  .invalidCast "Value received does not match any argument from literal"
    (.cons (PyVal.tup args) .nil) .none

/-- The candidate loop of `literal_cast`'s inner `_cast`. -/
def literalCastGo (allArgs : List PyVal) (val : String) : List PyVal → Except PyExc PyVal
  | [] => .error (literalNoMatchErr allArgs)
  | arg :: rest =>
    match tryCast arg.typeOf val with
    | .error e => .error e
    | .ok casted => if pyEqB casted arg then .ok arg else literalCastGo allArgs val rest

/-- `literal_cast` (config/utils.py): pair each declared candidate with
its runtime type, then walk the candidates in declaration order and
return the first whose `_try_cast`ed form compares equal to it;
exhaustion raises the no-match `InvalidCast`. -/
def literal_cast (args : List PyVal) (val : String) : Except PyExc PyVal :=
  literalCastGo args val args

/-- The casted form `_try_cast` yields for a candidate of supported type:
the caster's result, or the raw string when the caster raises. -/
def castedForm (t : PyType) (val : String) : PyVal :=
  match casterFor t with
  | some caster =>
    match caster val with
    | .ok v => v
    | .error _ => .str val
  | Option.none => .str val

/-- Specification-side reading of the literal matcher: the first declared
candidate whose casted form compares Python-equal to the candidate. -/
def literalFirstMatch (args : List PyVal) (val : String) : Option PyVal :=
  args.find? (fun arg => pyEqB (castedForm arg.typeOf val) arg)

/-- Association-list lookup, the embedding of a Python dict keyed by
strings (insertion-ordered, unique keys). -/
def assocLookup {α : Type} : List (String × α) → String → Option α
  | [], _ => Option.none
  | (k, v) :: rest, key => if k == key then some v else assocLookup rest key

/-- Python dict assignment. -/
def assocSet {α : Type} : List (String × α) → String → α → List (String × α)
  | [], k, v => [(k, v)]
  | (k2, v2) :: rest, k, v =>
    if k2 == k then (k, v) :: rest else (k2, v2) :: assocSet rest k v

/-- Python dict deletion. -/
def assocRemove {α : Type} : List (String × α) → String → List (String × α)
  | [], _ => []
  | (k2, v2) :: rest, k => if k2 == k then rest else (k2, v2) :: assocRemove rest k

/-- A `default` argument of the resolvers: the `MISSING` sentinel (no
default supplied), a plain value, or a callable producing the value
lazily (`callableDflt` carries the function object's name for the case
where the object itself is passed along uncalled). -/
inductive Dflt where
  | missing : Dflt
  | val (v : PyVal) : Dflt
  | callableDflt (name : String) (f : Unit → PyVal) : Dflt

def Dflt.isMissing : Dflt → Bool
  | .missing => true
  | _ => false

/-- The Python object a `Dflt` stands for when it is handed on without
being invoked: the `MISSING` class itself, the plain value, or the
function object. -/
def Dflt.toVal : Dflt → PyVal
  | .missing => .missingSentinel
  | .val v => v
  | .callableDflt n _ => .str ("<function " ++ n ++ ">")

/-- Modelled from the spec: `Config._cast` in `config/config.py` (absent
from src/).  Applies the cast to the resolved value; any exception the
cast raises is re-raised as `InvalidCast` with the original exception
as `__cause__` — except `MissingName`, which the spec's propagation
policy lets through unwrapped. -/
def configCast (name : String) (v : PyVal) (cast : Cast) : Except PyExc PyVal :=
  match cast.fn v with
  | .ok r => .ok r
  | .error e =>
    if e.isMissingName then .error e
    else .error (.invalidCast name .nil (.some e))

/-- Modelled from the spec: the base resolver `Config` of
`config/config.py` (absent from src/), reduced to what the claims need:
its in-memory string mapping (constructor-time sources already
materialized). -/
structure Config where
  mapping : List (String × String)

/-- Modelled from the spec: `Config.get` (config/config.py, absent from
src/): look the name up; if present apply the cast (if any) through
`_cast`; if absent return the supplied default — invoking it when it is
callable, without casting — or raise `MissingName(name)` when no
default was supplied. -/
def Config.get (c : Config) (name : String) (cast : Option Cast) (default : Dflt) :
    Except PyExc PyVal :=
  match assocLookup c.mapping name with
  | some raw =>
    match cast with
    | Option.none => .ok (.str raw)
    | some cc => configCast name (.str raw) cc
  | Option.none =>
    match default with
    | .missing => .error (.missingName name)
    | .val v => .ok v
    | .callableDflt _ f => .ok (f ())

/-- Modelled from the spec: `CachedConfig` (config/config.py, absent from
src/): the base resolver plus a per-instance memo from name to the
first successfully resolved typed value. -/
structure CachedConfig where
  base : Config
  cache : List (String × PyVal)

/-- Modelled from the spec: a `CachedConfig` call: a name already in the
cache replays the memoized value, ignoring the newly supplied cast and
default; otherwise base resolution runs and, on success, its value is
memoized.  Returns the value with the updated resolver state. -/
def CachedConfig.call (c : CachedConfig) (name : String) (cast : Option Cast)
    (default : Dflt) : Except PyExc (PyVal × CachedConfig) :=
  match assocLookup c.cache name with
  | some v => .ok (v, c)
  | Option.none =>
    match c.base.get name cast default with
    | .ok v => .ok (v, ⟨c.base, (name, v) :: c.cache⟩)
    | .error e => .error e

/-- Modelled from the spec: the `Env` enumeration of `config/enums.py`
(absent from src/), ordered TEST < LOCAL < DEV < PRD. -/
inductive Env where
  | TEST : Env
  | LOCAL : Env
  | DEV : Env
  | PRD : Env
deriving DecidableEq, Repr

/-- `ENV_RELEVANCY` (config/envconfig.py line 91): the ordinal rank of
each environment. -/
def ENV_RELEVANCY : Env → Nat
  | .TEST => 0
  | .LOCAL => 1
  | .DEV => 2
  | .PRD => 3

/-- `ByRelevancy.required_if` (config/envconfig.py), after its bootstrap
resolution of the current environment: the produced validator ignores
the queried name and checks
`ENV_RELEVANCY[env] <= ENV_RELEVANCY[self.max_relevancy]`. -/
def ByRelevancy.validator (maxRelevancy env : Env) : String → Bool :=
  fun _ => decide (ENV_RELEVANCY env ≤ ENV_RELEVANCY maxRelevancy)

/-- `OptionalConfig` (config/envconfig.py): the primary mapping, the
file-backed secondary values (`_file_vals`, materialized by the base
constructor), the constructor's `ignore_default`, and the constructed
validator `_required_if` (whose per-name result `validate` memoizes; it
is a pure function here, so memoization is the identity). -/
structure OptionalConfig where
  mapping : List (String × String)
  fileVals : List (String × String)
  ignoreDefault : Bool
  requiredIf : String → Bool

/-- `OptionalConfig._get_value` (config/envconfig.py lines 35-49): take
the primary mapping's value with the caller's `default` as the
`dict.get` fallback; only when the gate approves AND that result is the
`MISSING` sentinel consult the file-backed values; if the result is
still `MISSING` and `ignore_default` holds, raise `MissingName(name)`;
otherwise return it (even when it is the sentinel itself). -/
def OptionalConfig.getValue (c : OptionalConfig) (name : String) (default : Dflt)
    (ignoreDefault : Option Bool) : Except PyExc Dflt :=
  let ignore := ignoreDefault.getD c.ignoreDefault
  let value : Dflt :=
    match assocLookup c.mapping name with
    | some raw => .val (.str raw)
    | Option.none => default
  let value : Dflt :=
    if c.requiredIf name && value.isMissing then
      match assocLookup c.fileVals name with
      | some raw => .val (.str raw)
      | Option.none => .missing
    else value
  if value.isMissing && ignore then .error (.missingName name) else .ok value

/-- `OptionalConfig.get` (config/envconfig.py lines 51-59): resolve via
`_get_value` and, when a cast was supplied, push the resolved value —
whether it came from a source or from the supplied default — through
the resolver's `_cast`. -/
def OptionalConfig.get (c : OptionalConfig) (name : String) (cast : Option Cast)
    (default : Dflt) (ignoreDefault : Option Bool) : Except PyExc PyVal :=
  match c.getValue name default ignoreDefault with
  | .error e => .error e
  | .ok value =>
    match cast with
    | Option.none => .ok value.toVal
    | some cc => configCast name value.toVal cc

/-- Modelled from the spec: `EnvMapping` of `config/mapping.py` (absent
from src/): a mutable mapping recording which keys have been read;
writes or deletes to an already-read key raise the key-conflict error
`AlreadySet`, a `KeyError` subclass. -/
structure EnvMapping where
  mapping : List (String × String)
  alreadyRead : List String

/-- Modelled from the spec: `EnvMapping.__getitem__`: return the value
and record the key as read; a missing key is a plain `KeyError`. -/
def EnvMapping.getItem (m : EnvMapping) (k : String) :
    Except PyExc (String × EnvMapping) :=
  match assocLookup m.mapping k with
  | some v =>
    .ok (v, ⟨m.mapping, if m.alreadyRead.contains k then m.alreadyRead else k :: m.alreadyRead⟩)
  | Option.none => .error (.keyError k)

/-- Modelled from the spec: `EnvMapping.__setitem__`: refuse, with the
key-conflict error, to overwrite a key that has been read. -/
def EnvMapping.setItem (m : EnvMapping) (k v : String) : Except PyExc EnvMapping :=
  if m.alreadyRead.contains k then .error (.alreadySet k)
  else .ok ⟨assocSet m.mapping k v, m.alreadyRead⟩

/-- Modelled from the spec: `EnvMapping.__delitem__`: refuse, with the
key-conflict error, to delete a key that has been read. -/
def EnvMapping.delItem (m : EnvMapping) (k : String) : Except PyExc EnvMapping :=
  if m.alreadyRead.contains k then .error (.alreadySet k)
  else .ok ⟨assocRemove m.mapping k, m.alreadyRead⟩

/-- The rule of `test_with_rule_invalid_rule` (src/tests/test_helpers.py):
`int(x) < 40`. -/
def lessThan40 : PyVal → Bool := fun v =>
  match v with
  | .str s =>
    match pyIntParse s with
    | some n => decide (n < 40)
    | Option.none => false
  | _ => false

/-- `with_rule(less_than_40)` packaged as a resolver cast. -/
def lt40Cast : Cast := ⟨"less_than_40", with_rule "less_than_40" lessThan40⟩

/-- A cast whose output is distinguishable from its input: appends an
exclamation mark to a string. -/
def exclaimCast : Cast :=
  ⟨"exclaim", fun v =>
    match v with
    | .str s => .ok (.str (s ++ "!"))
    | _ => .error (.typeError "expected str")⟩

/-- Python `str` as a resolver cast. -/
def strValCast : Cast := ⟨"str", fun v => .ok (.str v.pyStr)⟩

/-- The strict boolean cast as a resolver cast. -/
def boolValCast : Cast := ⟨"bool", boolean_cast_strict⟩

/-- The conditional resolver of the C1 scenario: `NAME` absent from the
primary mapping, present in the file-backed values, and the relevancy
gate satisfied (current environment LOCAL, configured maximum LOCAL). -/
def gatedCfg : OptionalConfig :=
  ⟨[("ENV", "local")], [("NAME", "v")], true, ByRelevancy.validator Env.LOCAL Env.LOCAL⟩

/-- A conditional resolver with empty sources whose gate always
refuses. -/
def emptyCfg : OptionalConfig := ⟨[], [], true, fun _ => false⟩

/-- The conditional resolver of the C1 scenario in a more relevant
environment: current environment PRD exceeds the configured maximum
LOCAL, so the gate refuses. -/
def gatedCfgPrd : OptionalConfig :=
  ⟨[("ENV", "prd")], [("NAME", "v")], true, ByRelevancy.validator Env.LOCAL Env.PRD⟩

/-- A cached resolver over `{"key": "42"}` with an empty cache. -/
def cachedCfg0 : CachedConfig := ⟨⟨[("key", "42")]⟩, []⟩

/-- The same cached resolver after `"key"` has been resolved once. -/
def cachedCfg1 : CachedConfig := ⟨⟨[("key", "42")]⟩, [("key", .str "42")]⟩

/-- The enum class of `test_literal_cast_returns_valid_cast`
(src/tests/test_helpers.py). -/
def TestEnum : EnumCls := ⟨"Test", [("VALUE", "value")]⟩

theorem isPrefixOf_self_append (l post : List Char) : l.isPrefixOf (l ++ post) = true := by
  induction l with
  | nil => cases post <;> rfl
  | cons c rest ih => simp [List.isPrefixOf, ih]

theorem listContains_self_append (mid post : List Char) :
    listContains mid (mid ++ post) = true := by
  cases mid with
  | nil =>
    cases post with
    | nil => rfl
    | cons c rest => simp [listContains, List.isPrefixOf]
  | cons c rest => simp [listContains, isPrefixOf_self_append]

theorem listContains_append (pre mid post : List Char) :
    listContains mid (pre ++ (mid ++ post)) = true := by
  induction pre with
  | nil => simpa using listContains_self_append mid post
  | cons c pre ih =>
    simp [listContains, ih]

theorem strContains_parts (pre mid post : String) :
    strContains (pre ++ mid ++ post) mid = true := by
  have h : (pre ++ mid ++ post).data = pre.data ++ (mid.data ++ post.data) := by
    simp [String.data_append]
  simpa [strContains, h] using listContains_append pre.data mid.data post.data

theorem strContains_parts2 (pre mid : String) : strContains (pre ++ mid) mid = true := by
  have h := strContains_parts pre mid ""
  simpa using h

theorem assocLookup_assocSet_self {α : Type} (l : List (String × α)) (k : String) (v : α) :
    assocLookup (assocSet l k v) k = some v := by
  induction l with
  | nil => simp [assocSet, assocLookup]
  | cons hd tl ih =>
    obtain ⟨k2, v2⟩ := hd
    by_cases h : k2 == k
    · simp [assocSet, assocLookup, h]
    · simp only [assocSet, h]
      simp only [Bool.false_eq_true]
      rw [if_neg (by simp_all)]
      simp [assocLookup, h, ih]

theorem tryCast_ok (t : PyType) (val : String) (h : (casterFor t).isSome) :
    tryCast t val = .ok (castedForm t val) := by
  match hc : casterFor t with
  | Option.none => rw [hc] at h; simp at h
  | some caster =>
    simp only [tryCast, castedForm, hc]
    cases hcv : caster val <;> simp

theorem literalCastGo_eq_find (allArgs : List PyVal) (val : String) (rest : List PyVal)
    (h : ∀ a ∈ rest, (casterFor a.typeOf).isSome) :
    literalCastGo allArgs val rest =
      match rest.find? (fun arg => pyEqB (castedForm arg.typeOf val) arg) with
      | some a => .ok a
      | Option.none => .error (literalNoMatchErr allArgs) := by
  induction rest with
  | nil => rfl
  | cons a rest ih =>
    have ha : (casterFor a.typeOf).isSome := h a (List.mem_cons_self a rest)
    have hrest : ∀ b ∈ rest, (casterFor b.typeOf).isSome :=
      fun b hb => h b (List.mem_cons_of_mem _ hb)
    simp only [literalCastGo]
    rw [tryCast_ok _ _ ha]
    by_cases hm : pyEqB (castedForm a.typeOf val) a
    · simp [hm, List.find?_cons_of_pos]
    · rw [List.find?_cons_of_neg _ (by simpa using hm)]
      simp [hm, ih hrest]

theorem literalCastGo_unsupported (allArgs : List PyVal) (val : String)
    (pre post : List PyVal) (u : PyVal)
    (hu : casterFor u.typeOf = Option.none)
    (hpre : ∀ a ∈ pre,
      (casterFor a.typeOf).isSome ∧ pyEqB (castedForm a.typeOf val) a = false) :
    literalCastGo allArgs val (pre ++ u :: post) =
      .error (.invalidCast "Unknown type used for Literal" .nil .none) := by
  induction pre with
  | nil => simp [literalCastGo, tryCast, hu]
  | cons a pre ih =>
    obtain ⟨ha, hne⟩ := hpre a (List.mem_cons_self a pre)
    simp only [List.cons_append, literalCastGo]
    rw [tryCast_ok _ _ ha]
    simp [hne, ih (fun b hb => hpre b (List.mem_cons_of_mem _ hb))]

/-- C2: for every name present in the mapping and every cast function
that raises an exception on the raw value (any exception other than
`MissingName`, which the propagation policy exempts from wrapping), the
resolver's get/call raises `InvalidCast` — and only `InvalidCast` —
with `__cause__` set to the original exception raised by the cast. -/
theorem C2_invalid_cast_wrapping (c : Config) (name raw : String) (cast : Cast)
    (e : PyExc) (default : Dflt)
    (hlook : assocLookup c.mapping name = some raw)
    (hfail : cast.fn (.str raw) = .error e)
    (hnm : e.isMissingName = false) :
    Config.get c name (some cast) default = .error (.invalidCast name .nil (.some e)) := by
  simp [Config.get, hlook, configCast, hfail, hnm]

/-- Witness for C2 at the sources' own example: a rule-guarded cast
failing with `InvalidEnv` on `"42"` comes back as `InvalidCast` caused
by that `InvalidEnv`. -/
theorem C2_invalid_cast_wrapping_witness :
    Config.get ⟨[("key", "42")]⟩ "key" (some lt40Cast) .missing =
      .error (.invalidCast "key" .nil (.some (.invalidEnv
        "Value 42 did not pass rule check less_than_40" "less_than_40" (.str "42")))) :=
  C2_invalid_cast_wrapping ⟨[("key", "42")]⟩ "key" "42" lt40Cast _ .missing (by decide)
    (by decide) (by decide)

/-- C5: `multicast(primary, fallback)` returns the primary's result when
the primary succeeds; on primary cast-failure (`InvalidCast`) it
returns the fallback's result when the fallback succeeds; and when both
casts fail with cast-failure it raises a single `InvalidCast` whose
message embeds both underlying failures and both cast identities, with
the second failure as `__cause__`. -/
theorem C5_multicast_fallback (often fallback : Cast) (val : PyVal) :
    (∀ v, often.fn val = .ok v → (multicast often fallback).fn val = .ok v) ∧
    (∀ e1 v, often.fn val = .error e1 → e1.isInvalidCast = true →
      fallback.fn val = .ok v → (multicast often fallback).fn val = .ok v) ∧
    (∀ e1 e2, often.fn val = .error e1 → e1.isInvalidCast = true →
      fallback.fn val = .error e2 → e2.isInvalidCast = true →
      (multicast often fallback).fn val =
        .error (.invalidCast (multicastMsg often fallback e1 e2) .nil (.some e2)) ∧
      strContains (multicastMsg often fallback e1 e2) often.repr = true ∧
      strContains (multicastMsg often fallback e1 e2) fallback.repr = true ∧
      strContains (multicastMsg often fallback e1 e2) e1.reprStr = true ∧
      strContains (multicastMsg often fallback e1 e2) e2.reprStr = true) := by
  refine ⟨?_, ?_, ?_⟩
  · intro v h
    simp [multicast, h]
  · intro e1 v h1 hic h2
    simp [multicast, h1, hic, h2]
  · intro e1 e2 h1 hic1 h2 hic2
    refine ⟨by simp [multicast, h1, hic1, h2, hic2], ?_, ?_, ?_, ?_⟩
    · have hmsg : multicastMsg often fallback e1 e2 =
          "Value received failed both casts: " ++ often.repr ++
            (" and " ++ fallback.repr ++ ": " ++ e1.reprStr ++ " and " ++ e2.reprStr) := by
        simp [multicastMsg, String.append_assoc]
      rw [hmsg]
      exact strContains_parts _ _ _
    · have hmsg : multicastMsg often fallback e1 e2 =
          ("Value received failed both casts: " ++ often.repr ++ " and ") ++ fallback.repr ++
            (": " ++ e1.reprStr ++ " and " ++ e2.reprStr) := by
        simp [multicastMsg, String.append_assoc]
      rw [hmsg]
      exact strContains_parts _ _ _
    · have hmsg : multicastMsg often fallback e1 e2 =
          ("Value received failed both casts: " ++ often.repr ++ " and " ++ fallback.repr ++
            ": ") ++ e1.reprStr ++ (" and " ++ e2.reprStr) := by
        simp [multicastMsg, String.append_assoc]
      rw [hmsg]
      exact strContains_parts _ _ _
    · have hmsg : multicastMsg often fallback e1 e2 =
          ("Value received failed both casts: " ++ often.repr ++ " and " ++ fallback.repr ++
            ": " ++ e1.reprStr ++ " and ") ++ e2.reprStr := by
        simp [multicastMsg, String.append_assoc]
      rw [hmsg]
      exact strContains_parts2 _ _

/-- Witness for C5 at the sources' own example: `int` succeeding over a
failing fallback, and the strict boolean cast falling back. -/
theorem C5_multicast_fallback_witness :
    (multicast ⟨"int", fun v => intCast v.pyStr⟩ lt40Cast).fn (.str "42") = .ok (.int 42) ∧
    (multicast boolValCast ⟨"int", fun v => intCast v.pyStr⟩).fn (.str "42") = .ok (.int 42) := by
  constructor
  · exact (C5_multicast_fallback ⟨"int", fun v => intCast v.pyStr⟩ lt40Cast (.str "42")).1
      (.int 42) (by decide)
  · exact (C5_multicast_fallback boolValCast ⟨"int", fun v => intCast v.pyStr⟩ (.str "42")).2.1
      (.invalidCast "Expected a boolean-like value but found no match" .nil .none) (.int 42)
      (by decide) (by decide) (by decide)

/-- C7: the lenient boolean cast maps true, false, 1, 0 and the empty
string case-insensitively, and yields the `None` no-match marker — not
an exception — for every other string; the strict mode agrees on the
five mapped forms and raises `InvalidCast` on every no-match; and a
value already of boolean type passes through unchanged in both
modes. -/
theorem C7_boolean_cast_modes :
    (∀ s : String, pyLower s = "true" → boolean_cast (.str s) = .ok (some true)) ∧
    (∀ s : String, pyLower s = "false" → boolean_cast (.str s) = .ok (some false)) ∧
    (∀ s : String, pyLower s = "1" → boolean_cast (.str s) = .ok (some true)) ∧
    (∀ s : String, pyLower s = "0" → boolean_cast (.str s) = .ok (some false)) ∧
    (∀ s : String, pyLower s = "" → boolean_cast (.str s) = .ok (some false)) ∧
    (∀ s : String, pyLower s ≠ "true" → pyLower s ≠ "false" → pyLower s ≠ "1" →
      pyLower s ≠ "0" → pyLower s ≠ "" →
      boolean_cast (.str s) = .ok Option.none ∧
      boolean_cast_strict (.str s) =
        .error (.invalidCast "Expected a boolean-like value but found no match" .nil .none)) ∧
    (∀ (s : String) (b : Bool), boolean_cast (.str s) = .ok (some b) →
      boolean_cast_strict (.str s) = .ok (.bool b)) ∧
    (∀ b : Bool, boolean_cast (.bool b) = .ok (some b) ∧
      boolean_cast_strict (.bool b) = .ok (.bool b)) := by
  refine ⟨?_, ?_, ?_, ?_, ?_, ?_, ?_, ?_⟩
  · intro s h; simp [boolean_cast, booleanTable, h]
  · intro s h; simp [boolean_cast, booleanTable, h]
  · intro s h; simp [boolean_cast, booleanTable, h]
  · intro s h; simp [boolean_cast, booleanTable, h]
  · intro s h; simp [boolean_cast, booleanTable, h]
  · intro s h1 h2 h3 h4 h5
    constructor
    · simp [boolean_cast, booleanTable, h1, h2, h3, h4, h5]
    · simp [boolean_cast_strict, boolean_cast, booleanTable, h1, h2, h3, h4, h5]
  · intro s b h; simp [boolean_cast_strict, h]
  · intro b; exact ⟨rfl, rfl⟩

/-- Witness for C7 at concrete inputs covering the mapped, unmapped and
pass-through cases. -/
theorem C7_boolean_cast_modes_witness :
    boolean_cast (.str "TRUE") = .ok (some true) ∧
    boolean_cast (.str "whatever") = .ok Option.none ∧
    boolean_cast_strict (.str "whatever") =
      .error (.invalidCast "Expected a boolean-like value but found no match" .nil .none) ∧
    boolean_cast_strict (.str "0") = .ok (.bool false) ∧
    boolean_cast_strict (.bool true) = .ok (.bool true) := by
  refine ⟨C7_boolean_cast_modes.1 "TRUE" (by decide), ?_, ?_, ?_, ?_⟩
  · exact (C7_boolean_cast_modes.2.2.2.2.2.1 "whatever" (by decide) (by decide) (by decide)
      (by decide) (by decide)).1
  · exact (C7_boolean_cast_modes.2.2.2.2.2.1 "whatever" (by decide) (by decide) (by decide)
      (by decide) (by decide)).2
  · exact C7_boolean_cast_modes.2.2.2.2.2.2.1 "0" false
      (C7_boolean_cast_modes.2.2.2.1 "0" (by decide))
  · exact (C7_boolean_cast_modes.2.2.2.2.2.2.2 true).2

/-- C9: in the write-once mapping, once a key has been written and then
read, every later attempt to overwrite it and every attempt to delete
it raises a key error (`AlreadySet`, a `KeyError` subclass); the error
arises at the mapping layer and is not an `InvalidCast`. -/
theorem C9_write_once (m0 : EnvMapping) (k v w : String)
    (hk : k ∉ m0.alreadyRead) :
    m0.setItem k v = .ok ⟨assocSet m0.mapping k v, m0.alreadyRead⟩ ∧
    EnvMapping.getItem ⟨assocSet m0.mapping k v, m0.alreadyRead⟩ k =
      .ok (v, ⟨assocSet m0.mapping k v, k :: m0.alreadyRead⟩) ∧
    EnvMapping.setItem ⟨assocSet m0.mapping k v, k :: m0.alreadyRead⟩ k w =
      .error (.alreadySet k) ∧
    EnvMapping.delItem ⟨assocSet m0.mapping k v, k :: m0.alreadyRead⟩ k =
      .error (.alreadySet k) ∧
    (PyExc.alreadySet k).isKeyError = true ∧
    (PyExc.alreadySet k).isInvalidCast = false := by
  refine ⟨?_, ?_, ?_, ?_, rfl, rfl⟩
  · simp [EnvMapping.setItem, hk]
  · simp [EnvMapping.getItem, assocLookup_assocSet_self, hk]
  · simp [EnvMapping.setItem]
  · simp [EnvMapping.delItem]

/-- Witness for C9 at the repository test's scenario
(`test_env_mapping_raises_errors_correctly_on_read`). -/
theorem C9_write_once_witness :
    EnvMapping.setItem ⟨[], []⟩ "my-name" "val" = .ok ⟨[("my-name", "val")], []⟩ ∧
    EnvMapping.getItem ⟨[("my-name", "val")], []⟩ "my-name" =
      .ok ("val", ⟨[("my-name", "val")], ["my-name"]⟩) ∧
    EnvMapping.setItem ⟨[("my-name", "val")], ["my-name"]⟩ "my-name" "error" =
      .error (.alreadySet "my-name") ∧
    EnvMapping.delItem ⟨[("my-name", "val")], ["my-name"]⟩ "my-name" =
      .error (.alreadySet "my-name") ∧
    (PyExc.alreadySet "my-name").isKeyError = true ∧
    (PyExc.alreadySet "my-name").isInvalidCast = false :=
  C9_write_once ⟨[], []⟩ "my-name" "val" "error" (by decide)

/-- C6: in the cached resolver, a name that already resolved replays the
identical cached typed value on every later call, ignoring any newly
supplied cast and default arguments and leaving the cache (and so the
resolver state) untouched; and a first successful resolution enters
the name into the cache, so every later call replays it. -/
theorem C6_cached_replay (c : CachedConfig) (name : String) :
    (∀ v, assocLookup c.cache name = some v →
      ∀ cast default, c.call name cast default = .ok (v, c)) ∧
    (assocLookup c.cache name = Option.none →
      ∀ cast default w, c.base.get name cast default = .ok w →
        c.call name cast default = .ok (w, ⟨c.base, (name, w) :: c.cache⟩) ∧
        assocLookup ((name, w) :: c.cache) name = some w) := by
  constructor
  · intro v hv cast default
    simp [CachedConfig.call, hv]
  · intro h cast default w hw
    exact ⟨by simp [CachedConfig.call, h, hw], by simp [assocLookup]⟩

/-- Witness for C6 at the spec's example: `cfg(key, str)` then
`cfg(key, bool)` — the second call ignores the boolean cast (which
would fail on `"42"`) and returns the same cached string. -/
theorem C6_cached_replay_witness :
    CachedConfig.call cachedCfg0 "key" (some strValCast) .missing =
      .ok (.str "42", cachedCfg1) ∧
    CachedConfig.call cachedCfg1 "key" (some boolValCast) .missing =
      .ok (.str "42", cachedCfg1) := by
  constructor
  · exact ((C6_cached_replay cachedCfg0 "key").2 (by decide) (some strValCast) .missing
      (.str "42") (by decide)).1
  · exact (C6_cached_replay cachedCfg1 "key").1 (.str "42") (by decide)
      (some boolValCast) .missing

/-- C10: a literal declaration containing a candidate of unsupported
runtime type (none of str, bool, int, bytes, NoneType or an Enum
subclass — e.g. a float such as 3.0) makes the produced cast raise
`InvalidCast` with message "Unknown type used for Literal" for every
input that equals no earlier candidate in declaration order — matching
never proceeds past the unsupported candidate, even when a later
candidate would match. -/
theorem C10_unsupported_literal (pre post : List PyVal) (u : PyVal) (val : String)
    (hu : casterFor u.typeOf = Option.none)
    (hpre : ∀ a ∈ pre,
      (casterFor a.typeOf).isSome ∧ pyEqB (castedForm a.typeOf val) a = false) :
    literal_cast (pre ++ u :: post) val =
      .error (.invalidCast "Unknown type used for Literal" .nil .none) :=
  literalCastGo_unsupported _ val pre post u hu hpre

/-- Witness for C10: the docstring's own `Literal[1, "two", 3.0]` at
input `"3.0"` (the input even equals the float candidate itself), and a
declaration where the later candidate `"x"` would match the input. -/
theorem C10_unsupported_literal_witness :
    literal_cast [.int 1, .str "two", .float "3.0"] "3.0" =
      .error (.invalidCast "Unknown type used for Literal" .nil .none) ∧
    literal_cast [.int 1, .float "3.0", .str "x"] "x" =
      .error (.invalidCast "Unknown type used for Literal" .nil .none) := by
  constructor
  · exact C10_unsupported_literal [.int 1, .str "two"] [] (.float "3.0") "3.0"
      rfl (by decide)
  · exact C10_unsupported_literal [.int 1] [.str "x"] (.float "3.0") "x"
      rfl (by decide)

/-- C4 counterexample: the no-match failure of `literal_cast` carries
only the fixed message and the full candidate tuple — the received
value (here `"x"`) appears nowhere in the exception payload, refuting
the claim that the failure names the received value. -/
theorem C4_error_lacks_received_value :
    literal_cast [.int 1] "x" = .error (literalNoMatchErr [.int 1]) ∧
    (literalNoMatchErr [.int 1]).namesStr "x" = false := by decide

/-- C4 (amended): the literal cast tries each candidate in declaration
order, casting the input to the candidate's runtime type and comparing
for equality, and returns the first candidate whose casted form equals
it (declaration order is the tie-break); if no candidate matches, it
raises a cast-failure carrying a fixed message and the full candidate
set — the received value itself is not part of the payload. -/
theorem C4_literal_declaration_order (args : List PyVal) (val : String)
    (h : ∀ a ∈ args, (casterFor a.typeOf).isSome) :
    literal_cast args val =
      match literalFirstMatch args val with
      | some a => .ok a
      | Option.none => .error (literalNoMatchErr args) := by
  simpa [literalFirstMatch] using literalCastGo_eq_find args val args h

/-- Witness for C4 at the repository test's literal set: `"other"`
resolves to the string candidate, `"1"` to the int candidate, `"value"`
to the enum member, and `"invalid"` to the no-match failure. -/
theorem C4_literal_declaration_order_witness :
    literal_cast
      [.int 1, .str "other", .bytes "another", .enumMember TestEnum "VALUE" "value",
        .none, .bool false] "other" = .ok (.str "other") ∧
    literal_cast
      [.int 1, .str "other", .bytes "another", .enumMember TestEnum "VALUE" "value",
        .none, .bool false] "1" = .ok (.int 1) ∧
    literal_cast
      [.int 1, .str "other", .bytes "another", .enumMember TestEnum "VALUE" "value",
        .none, .bool false] "value" = .ok (.enumMember TestEnum "VALUE" "value") ∧
    literal_cast
      [.int 1, .str "other", .bytes "another", .enumMember TestEnum "VALUE" "value",
        .none, .bool false] "invalid" =
      .error (literalNoMatchErr
        [.int 1, .str "other", .bytes "another", .enumMember TestEnum "VALUE" "value",
          .none, .bool false]) := by
  refine ⟨?_, ?_, ?_, ?_⟩ <;>
    · rw [C4_literal_declaration_order _ _ (by decide)]
      decide

/-- C1 counterexample: with the relevancy gate satisfied and the value
present only in the file-backed secondary source, a call that supplies
a default returns the default and never consults the secondary source —
refuting "this holds for every call, whether or not a default argument
was supplied". -/
theorem C1_default_skips_secondary :
    gatedCfg.requiredIf "NAME" = true ∧
    assocLookup gatedCfg.mapping "NAME" = Option.none ∧
    assocLookup gatedCfg.fileVals "NAME" = some "v" ∧
    gatedCfg.get "NAME" Option.none (.val (.str "d")) Option.none = .ok (.str "d") ∧
    gatedCfg.get "NAME" Option.none (.val (.str "d")) Option.none ≠ .ok (.str "v") := by
  decide

/-- C1 (amended): for every name absent from the primary mapping and
looked up with no default supplied, if the resolved relevancy satisfies
the configured threshold the conditional resolver consults the
secondary file-backed source and returns its value when present, and
only if the name is absent there too does it apply the default/raise
policy (here: raise `MissingName` under `ignore_default`); when the
relevancy does not satisfy the threshold the secondary source is
treated as absent.  When a default argument is supplied, the default is
used directly and the secondary source is not consulted. -/
theorem C1_gated_secondary_lookup (c : OptionalConfig) (name : String)
    (habs : assocLookup c.mapping name = Option.none) :
    (c.requiredIf name = true → ∀ raw, assocLookup c.fileVals name = some raw →
      c.get name Option.none .missing Option.none = .ok (.str raw)) ∧
    (c.requiredIf name = true → assocLookup c.fileVals name = Option.none →
      c.ignoreDefault = true →
      c.get name Option.none .missing Option.none = .error (.missingName name)) ∧
    (c.requiredIf name = false → c.ignoreDefault = true →
      c.get name Option.none .missing Option.none = .error (.missingName name)) ∧
    (∀ v, c.get name Option.none (.val v) Option.none = .ok v) := by
  refine ⟨?_, ?_, ?_, ?_⟩
  · intro hg raw hfile
    simp [OptionalConfig.get, OptionalConfig.getValue, habs, hg, hfile, Dflt.isMissing,
      Dflt.toVal]
  · intro hg hfile hid
    simp [OptionalConfig.get, OptionalConfig.getValue, habs, hg, hfile, hid, Dflt.isMissing]
  · intro hg hid
    simp [OptionalConfig.get, OptionalConfig.getValue, habs, hg, hid, Dflt.isMissing]
  · intro v
    simp [OptionalConfig.get, OptionalConfig.getValue, habs, Dflt.isMissing, Dflt.toVal]

/-- Witness for C1 at the spec's gated-lookup example: below the
threshold the file-backed value is found; above it the same lookup
raises `MissingName` although the secondary source has the value. -/
theorem C1_gated_secondary_lookup_witness :
    gatedCfg.get "NAME" Option.none .missing Option.none = .ok (.str "v") ∧
    gatedCfgPrd.get "NAME" Option.none .missing Option.none =
      .error (.missingName "NAME") := by
  constructor
  · exact (C1_gated_secondary_lookup gatedCfg "NAME" (by decide)).1 (by decide) "v" (by decide)
  · exact (C1_gated_secondary_lookup gatedCfgPrd "NAME" (by decide)).2.2.1 (by decide)
      (by decide)

/-- C3 counterexample: with the name absent everywhere and both a
default and a cast supplied, the conditional resolver applies the cast
to the default (yielding "d!" from default "d"), refuting "returns the
default without applying the cast to it". -/
theorem C3_default_is_casted :
    emptyCfg.get "KEY" (some exclaimCast) (.val (.str "d")) Option.none = .ok (.str "d!") ∧
    emptyCfg.get "KEY" (some exclaimCast) (.val (.str "d")) Option.none ≠
      .ok (.str "d") := by
  decide

/-- C3 (amended): for every name absent from all consulted sources: with
no default supplied the resolver raises `MissingName(name)`; the base
resolver returns a supplied default without applying the cast to it,
invoking the default first if it is itself callable; the conditional
resolver returns a supplied default unchanged only when no cast
argument was given — when a cast is supplied it pushes the default
through the cast exactly like a present value. -/
theorem C3_default_policy :
    (∀ (c : OptionalConfig) name cast,
      assocLookup c.mapping name = Option.none →
      assocLookup c.fileVals name = Option.none →
      c.ignoreDefault = true →
      c.get name cast .missing Option.none = .error (.missingName name)) ∧
    (∀ (c : Config) name cast,
      assocLookup c.mapping name = Option.none →
      c.get name cast .missing = .error (.missingName name)) ∧
    (∀ (c : Config) name cast v,
      assocLookup c.mapping name = Option.none →
      c.get name cast (.val v) = .ok v) ∧
    (∀ (c : Config) name cast fname f,
      assocLookup c.mapping name = Option.none →
      c.get name cast (.callableDflt fname f) = .ok (f ())) ∧
    (∀ (c : OptionalConfig) name v,
      assocLookup c.mapping name = Option.none →
      c.get name Option.none (.val v) Option.none = .ok v) ∧
    (∀ (c : OptionalConfig) name v cast,
      assocLookup c.mapping name = Option.none →
      c.get name (some cast) (.val v) Option.none = configCast name v cast) := by
  refine ⟨?_, ?_, ?_, ?_, ?_, ?_⟩
  · intro c name cast habs hfile hid
    by_cases hg : c.requiredIf name <;>
      simp [OptionalConfig.get, OptionalConfig.getValue, habs, hfile, hid, hg, Dflt.isMissing]
  · intro c name cast habs
    simp [Config.get, habs]
  · intro c name cast v habs
    simp [Config.get, habs]
  · intro c name cast fname f habs
    simp [Config.get, habs]
  · intro c name v habs
    simp [OptionalConfig.get, OptionalConfig.getValue, habs, Dflt.isMissing, Dflt.toVal]
  · intro c name v cast habs
    simp [OptionalConfig.get, OptionalConfig.getValue, habs, Dflt.isMissing, Dflt.toVal]

/-- Witness for C3: missing-name raises for both resolvers; the base
resolver returns plain and lazily computed defaults uncast; the
conditional resolver returns the default unchanged when no cast is
given. -/
theorem C3_default_policy_witness :
    emptyCfg.get "KEY" Option.none .missing Option.none = .error (.missingName "KEY") ∧
    Config.get ⟨[]⟩ "KEY" (some exclaimCast) .missing = .error (.missingName "KEY") ∧
    Config.get ⟨[]⟩ "KEY" (some exclaimCast) (.val (.str "d")) = .ok (.str "d") ∧
    Config.get ⟨[]⟩ "KEY" Option.none (.callableDflt "mk" (fun _ => .str "lazy")) =
      .ok (.str "lazy") ∧
    emptyCfg.get "KEY" Option.none (.val (.str "d")) Option.none = .ok (.str "d") := by
  refine ⟨?_, ?_, ?_, ?_, ?_⟩
  · exact C3_default_policy.1 emptyCfg "KEY" Option.none (by decide) (by decide) (by decide)
  · exact C3_default_policy.2.1 ⟨[]⟩ "KEY" (some exclaimCast) (by decide)
  · exact C3_default_policy.2.2.1 ⟨[]⟩ "KEY" (some exclaimCast) (.str "d") (by decide)
  · exact C3_default_policy.2.2.2.1 ⟨[]⟩ "KEY" Option.none "mk" (fun _ => .str "lazy")
      (by decide)
  · exact C3_default_policy.2.2.2.2.1 emptyCfg "KEY" (.str "d") (by decide)

/-- C8 counterexample: a value of sequence type that is not a tuple — a
list — does not pass through unchanged: it reaches the tokenizer, which
requires a string, and fails; only tuples pass through. -/
theorem C8_list_not_passed_through :
    comma_separated strCast (.lst [.str "a", .str "b"]) = .error (.attributeError "read") ∧
    comma_separated strCast (.lst [.str "a", .str "b"]) ≠
      .ok (.lst [.str "a", .str "b"]) := by
  decide

/-- C8 (amended): for every inner cast, `comma_separated` splits a
string input on commas with shell-like tokenization (quoted substrings
containing commas or whitespace stay single tokens), trims surrounding
whitespace per token, applies the inner cast to every token and returns
the ordered tuple of results; an input that is already a tuple passes
through unchanged (other sequence types do not). -/
theorem C8_comma_separated_split (cast : String → Except PyExc PyVal) :
    (∀ t, comma_separated cast (.tuple t) = .ok (.tuple t)) ∧
    (∀ s toks, shlexSplit s = .ok toks →
      comma_separated cast (.str s) =
        match toks.mapM (fun t => cast (pyStrip t)) with
        | .ok vs => .ok (PyVal.tup vs)
        | .error e => .error e) ∧
    (comma_separated strCast (.str "a, b, c") = .ok (.tup [.str "a", .str "b", .str "c"])) ∧
    (comma_separated intCast (.str "1, 2, 3") = .ok (.tup [.int 1, .int 2, .int 3])) ∧
    (comma_separated strCast (.str "a, 'b c', 'd, e'") =
      .ok (.tup [.str "a", .str "b c", .str "d, e"])) := by
  refine ⟨fun t => rfl, ?_, by decide, by decide, by decide⟩
  intro s toks h
  simp only [comma_separated, h]
  cases hm : toks.mapM (fun t => cast (pyStrip t)) with
  | ok vs => simp [hm, Bind.bind, Except.bind, pure, Except.pure]
  | error e => simp [hm, Bind.bind, Except.bind]

/-- Witness for C8: tuple pass-through and the tokenize-strip-cast
pipeline at a concrete string. -/
theorem C8_comma_separated_split_witness :
    comma_separated strCast (.tuple (PyValList.ofList [.str "q"])) =
      .ok (.tuple (PyValList.ofList [.str "q"])) ∧
    comma_separated strCast (.str "x, y") = .ok (.tup [.str "x", .str "y"]) := by
  constructor
  · exact (C8_comma_separated_split strCast).1 (PyValList.ofList [.str "q"])
  · rw [(C8_comma_separated_split strCast).2.1 "x, y" ["x", " y"] (by decide)]
    decide
